import Mathlib

/-!
The request-triggered build/run supervisor of shotgun-go (`webprocess.go`).

A shallow embedding of `WebProcess` and of its methods `check`, `rebuild`,
`start`, `Stop`, `clearCmd`, `isRunning`, `waitUntilIsUp`, `restart`,
`rebuildAndStart`, `prepareProcessForRequest` and (for its effect on the
supervisor) `ServeHTTP`.

The supervisor is stateful and talks to the outside world: it runs shell
commands, launches a child process, probes a URL.  The state is passed
explicitly; each answer of the outside world is an argument of the method
that asks for it, and the answers of one request are collected in `Env`.

Two fields of the state record what a call did:
* `log` is the logger `w.Log` of the source, one entry per `Println`/`Print`;
* `trace` is a ghost field absent from the source: every method appends one
  event when it is entered (and `kill`, `launch`, `probe` when the operating
  system or the network is really asked), so that "the build command was not
  run" is a statement about the state.

The mutex `w.m` is not part of the state: the embedding is sequential, and
the methods are the bodies run while the lock is held.  What the commands
write while a method runs is an answer of the outside world like the others:
a list of chunks, each with the command it comes from (`Origin`), in the
order in which they reach `&w.output`.
-/

namespace Shotgun

/-- One byte of captured output. -/
abbrev Byte := Nat

/-- Exit status `OK` of the check command (the action "none"). -/
def OK : Int := 0
/-- Exit status `REBUILD` of the check command. -/
def REBUILD : Int := 1
/-- Exit status `RESTART` of the check command. -/
def RESTART : Int := 2

/-- Go `error` values met in `webprocess.go`.
* `exit n`: an `*exec.ExitError` whose wait status has `ExitStatus() = n`;
* `exec`: any other error of `os/exec` (the command could not be run);
* `new s`: `errors.New(s)`. -/
inductive Err where
  | exit (status : Int)
  | exec
  | new (text : String)
  deriving DecidableEq

/-- The value returned by `exec.Cmd.Run` for a command that was started and
exited with status `n`: `nil` when `n = 0`, an `*exec.ExitError` carrying `n`
otherwise. -/
def exitResult (n : Int) : Option Err :=
  if n = 0 then none else some (Err.exit n)

/-- The fields of `exec.Cmd` the supervisor reads.
* `process`: `Process`, `nil` until `Start` succeeded, then the pid;
* `processState`: `ProcessState`, `nil` until the background `Wait` returned;
  the boolean is the value of `ProcessState.Exited()`. -/
structure Cmd where
  line : String
  process : Option Nat
  processState : Option Bool
  deriving DecidableEq

/-- One entry of the logger `w.Log`. -/
inductive LogLine where
  | checkStatus (n : Int)
  | build (cmd : String)
  | start (cmd : String)
  | stopping (pid : Nat)
  | started (pid : Nat)
  | waiting
  | dot
  | givingUp
  | err (e : Err)
  deriving DecidableEq

/-- Ghost events: which method was entered, and which outside action was
taken (`kill`: `Process.Kill()`, `launch`: `command.Start()`, `probe`:
`http.Head` in `isUp`). -/
inductive Event where
  | check
  | build
  | stop
  | kill (pid : Nat)
  | start
  | launch
  | wait
  | probe
  deriving DecidableEq

/-- The struct `WebProcess`.  `stdout`/`stderr` always are the multi-writers
onto `&w.output` set by `clearCmd`, so a write to either appends to `output`. -/
structure WebProcess where
  CheckCmd : String
  BuildCmd : String
  RunCmd : String
  TargetUrl : String
  command : Option Cmd
  output : List Byte
  log : List LogLine
  trace : List Event
  deriving DecidableEq

/-- Whose bytes reach `&w.output`.
* `current`: the command the call is running, the build command during
  `rebuild` and the run command the call launched during `waitUntilIsUp`;
* `earlier`: a command of an earlier generation, the child that was running
  when the call began or a command `Stop` killed before.  `clearCmd` zeroes
  `w.output` in place and `Process.Kill()` does not wait for the goroutines
  that copy the output of the command, whose multi-writer still targets
  `&w.output`: what they deliver after the reset lands in the new buffer. -/
inductive Origin where
  | current
  | earlier
  deriving DecidableEq

/-- One write reaching `&w.output`, taken as atomic. -/
structure Chunk where
  origin : Origin
  bytes : List Byte
  deriving DecidableEq

/-- The bytes of a list of chunks, in order, whoever wrote them. -/
def bytesOf : List Chunk → List Byte
  | [] => []
  | c :: cs => c.bytes ++ bytesOf cs

/-- What happened by one tick of the 200ms ticker in `waitUntilIsUp`.
* `waited`: the background `go w.command.Wait()` returned since the previous
  tick, with this value of `ProcessState.Exited()`;
* `out`: the chunks that reached `&w.output` since the previous tick (for
  tick 0: since `Stop` returned), from the launched child and from
  commands of earlier generations;
* `up`: whether `http.Head(TargetUrl)` answers without error at this tick. -/
structure Tick where
  waited : Option Bool
  out : List Chunk
  up : Bool

/-- The answers of the outside world during one `prepareProcessForRequest`.
* `checkRes`: result of `Run` of the check command;
* `buildOut`, `buildRes`: the chunks that reached `&w.output` while the build
  command ran (its own, and those of commands of earlier generations), and
  the result of its `Run`;
* `startRes`, `pid`: result of `command.Start()` and the pid when it is `nil`;
* `early`: the background `Wait` returned before `waitUntilIsUp` looked;
* `ticks`: the ticks of the ticker, numbered from 0;
* `status`: the status code the reverse proxy writes when the request is
  forwarded. -/
structure Env where
  checkRes : Option Err
  buildOut : List Chunk
  buildRes : Option Err
  startRes : Option Err
  pid : Nat
  early : Option Bool
  ticks : Nat → Tick
  status : Nat

/-- Append a ghost event. -/
def WebProcess.note (w : WebProcess) (e : Event) : WebProcess :=
  { w with trace := w.trace ++ [e] }

/-- One call of `w.Log.Println` / `w.Log.Print`. -/
def WebProcess.logln (w : WebProcess) (l : LogLine) : WebProcess :=
  { w with log := w.log ++ [l] }

/-- A write to `w.stdout` or `w.stderr`: it reaches `&w.output`. -/
def WebProcess.write (w : WebProcess) (bs : List Byte) : WebProcess :=
  { w with output := w.output ++ bs }

/-- The background goroutine `go w.command.Wait()` returns: the
`ProcessState` of the current command is set (once, and only for a command
whose `Start` succeeded). -/
def observe (w : WebProcess) : Option Bool → WebProcess
  | none => w
  | some ex =>
    match w.command with
    | none => w
    | some c =>
      if c.process.isSome && c.processState.isNone then
        { w with command := some { c with processState := some ex } }
      else w

/-- `WebProcess.isRunning`. -/
def isRunning (w : WebProcess) : Bool :=
  match w.command with
  | none => false
  | some c =>
    c.process.isSome &&
      (match c.processState with
       | none => true
       | some exited => !exited)

/-- `WebProcess.clearCmd`.  The buffer is zeroed in place: commands started
before keep their writers onto it (`Origin.earlier`). -/
def clearCmd (w : WebProcess) : WebProcess :=
  { w with command := none, output := [] }

/-- `NewWebProcess`. -/
def NewWebProcess (checkCmd buildCmd runCmd targeturl : String) : WebProcess :=
  clearCmd
    { CheckCmd := checkCmd, BuildCmd := buildCmd, RunCmd := runCmd,
      TargetUrl := targeturl, command := none, output := [], log := [],
      trace := [] }

/-- `WebProcess.check`.  `Except.error` is the `panic` of the source. -/
def check (w : WebProcess) (result : Option Err) : Except String (WebProcess × Int) :=
  let w := w.note Event.check
  let r : Except String (WebProcess × Int) :=
    match result with
    | none => Except.ok (w, 0)
    | some (Err.exit n) => Except.ok (w.logln (LogLine.checkStatus n), n)
    | some _ => Except.error "Couldn't case to ExitError"
  match r with
  | Except.error p => Except.error p
  | Except.ok (w, exitstatus) =>
    if exitstatus = REBUILD ∨ exitstatus = RESTART then Except.ok (w, exitstatus)
    else Except.ok (w, OK)

/-- `WebProcess.Stop`. -/
def Stop (w : WebProcess) : WebProcess :=
  let w := w.note Event.stop
  match w.command with
  | none => w
  | some c =>
    let w :=
      match c.process with
      | some pid => (w.logln (LogLine.stopping pid)).note (Event.kill pid)
      | none => w
    clearCmd w

/-- `WebProcess.rebuild`: `out` is what reaches the buffer while the build
command runs, `res` the result of its `Run`. -/
def rebuild (w : WebProcess) (out : List Chunk) (res : Option Err) :
    WebProcess × Option Err :=
  let w := w.logln (LogLine.build w.BuildCmd)
  let w := w.note Event.build
  let w := w.write (bytesOf out)
  (w, res)

/-- `WebProcess.start`: `startRes` is the result of `command.Start()`, `pid`
the pid of the launched process when that result is `nil`. -/
def start (w : WebProcess) (pid : Nat) (startRes : Option Err) :
    WebProcess × Option Err :=
  let w := w.logln (LogLine.start w.RunCmd)
  let w := w.note Event.start
  if isRunning w then (w, some (Err.new "Can't start, already running."))
  else
    let c : Cmd := { line := w.RunCmd, process := none, processState := none }
    let w := { w with command := some c }
    let w := w.note Event.launch
    match startRes with
    | some e => (w, some e)
    | none =>
      let w := { w with command := some { c with process := some pid } }
      let w := w.logln (LogLine.started pid)
      (w, none)

/-- `WebProcess.isUp` at a tick: the probe is made, its answer is `up`. -/
def isUp (w : WebProcess) (up : Bool) : WebProcess × Bool :=
  (w.note Event.probe, up)

/-- The loop `for _ = range ticker.C` of `waitUntilIsUp`, entered with the
counter `ticks = n`.  The ticker channel is never closed, so the loop has no
exit of its own: `none` only says that `fuel` iterations were not enough. -/
def waitLoop (ticks : Nat → Tick) : Nat → Nat → WebProcess → Option (WebProcess × Option Err)
  | 0, _, _ => none
  | fuel + 1, n, w =>
    let t := ticks n
    let w := observe (w.write (bytesOf t.out)) t.waited
    if !isRunning w then some (w, some (Err.new "Process not running"))
    else
      let (w, up) := isUp w t.up
      if up then some (w, none)
      else
        let w := w.logln LogLine.dot
        let n := n + 1
        if n > 20 then
          some (w.logln LogLine.givingUp,
            some (Err.new "Process did not listen after waiting 20*200ms"))
        else waitLoop ticks fuel n w

/-- `WebProcess.waitUntilIsUp`. -/
def waitUntilIsUp (fuel : Nat) (w : WebProcess) (early : Option Bool)
    (ticks : Nat → Tick) : Option (WebProcess × Option Err) :=
  let w := w.note Event.wait
  let w := observe w early
  if !isRunning w then some (w, some (Err.new "Process is not running."))
  else
    let w := w.logln LogLine.waiting
    waitLoop ticks fuel 0 w

/-- `WebProcess.restart`. -/
def restart (fuel : Nat) (w : WebProcess) (env : Env) : Option (WebProcess × Option Err) :=
  let w := Stop w
  match start w env.pid env.startRes with
  | (w, some e) => some (w.logln (LogLine.err e), some e)
  | (w, none) => waitUntilIsUp fuel w env.early env.ticks

/-- `WebProcess.rebuildAndStart`. -/
def rebuildAndStart (fuel : Nat) (w : WebProcess) (env : Env) :
    Option (WebProcess × Option Err) :=
  match rebuild w env.buildOut env.buildRes with
  | (w, some e) => some (w.logln (LogLine.err e), some e)
  | (w, none) => restart fuel w env

/-- `WebProcess.prepareProcessForRequest`.  `Except.error`: the call panicked
(in `check`); `Except.ok none`: `fuel` was not enough for the readiness loop;
`Except.ok (some (w, err))`: the call returned `err` in state `w`. -/
def prepareProcessForRequest (fuel : Nat) (w : WebProcess) (env : Env) :
    Except String (Option (WebProcess × Option Err)) :=
  match check w env.checkRes with
  | Except.error p => Except.error p
  | Except.ok (w, action) =>
    if !isRunning w || action == REBUILD then Except.ok (rebuildAndStart fuel w env)
    else if action == RESTART then Except.ok (restart fuel w env)
    else Except.ok (some (w, none))

/-- `WebProcess.ServeHTTP`, for what it does to the supervisor and with the
error of `prepareProcessForRequest` as result.  On an error the buffer is
read to its end into the response (`ioutil.ReadAll(&w.output)`); otherwise
the request is forwarded, and `responseWrapper.WriteHeader` copies the
buffer to its end into the response when the status is 500. -/
def ServeHTTP (fuel : Nat) (w : WebProcess) (env : Env) :
    Except String (Option (WebProcess × Option Err)) :=
  match prepareProcessForRequest fuel w env with
  | Except.error p => Except.error p
  | Except.ok none => Except.ok none
  | Except.ok (some (w, some e)) => Except.ok (some ({ w with output := [] }, some e))
  | Except.ok (some (w, none)) =>
    if env.status = 500 then Except.ok (some ({ w with output := [] }, none))
    else Except.ok (some (w, none))

/-- A sequence of requests served one after the other; the list holds the
error `prepareProcessForRequest` returned in each.  `none`: a call panicked
or ran out of fuel. -/
def serveAll (fuel : Nat) : WebProcess → List Env → Option (WebProcess × List (Option Err))
  | w, [] => some (w, [])
  | w, env :: envs =>
    match ServeHTTP fuel w env with
    | Except.ok (some (w1, e)) =>
      match serveAll fuel w1 envs with
      | some (w2, es) => some (w2, e :: es)
      | none => none
    | _ => none

/-! Sample states and environments -/

/-- A tick at which the child is alive, silent, and the URL unreachable. -/
def deadTick : Tick := { waited := none, out := [], up := false }

/-- A freshly constructed supervisor. -/
def w0 : WebProcess := NewWebProcess "check" "build" "run" "http://localhost:8000"

/-- A supervisor whose child (pid 5) is running. -/
def wRunning : WebProcess :=
  { w0 with command := some { line := "run", process := some 5, processState := none } }

/-- A supervisor whose child (pid 5) was observed to exit. -/
def wExited : WebProcess :=
  { w0 with command := some { line := "run", process := some 5, processState := some true } }

/-- The backend that builds and launches but never listens; `c` is the
result of the check command. -/
def stuckEnv (c : Option Err) : Env :=
  { checkRes := c, buildOut := [], buildRes := none, startRes := none, pid := 9,
    early := none, ticks := fun _ => deadTick, status := 502 }

/-- A supervisor with no process associated whose buffer still holds a byte
of an earlier generation. -/
def wStale : WebProcess := { w0 with output := [7] }

/-- A healthy backend: the build writes `[1]` and succeeds, the run command
launches as pid 9, writes `[2]` and answers the first probe; `c` is the
result of the check command. -/
def goodEnv (c : Option Err) : Env :=
  { checkRes := c, buildOut := [{ origin := Origin.current, bytes := [1] }],
    buildRes := none, startRes := none, pid := 9, early := none,
    ticks := fun _ =>
      { waited := none, out := [{ origin := Origin.current, bytes := [2] }], up := true },
    status := 200 }

/-- The check command asks for a rebuild (exit 1) and the build command
writes `[4]` and exits with status 3. -/
def failEnv : Env :=
  { checkRes := some (Err.exit 1), buildOut := [{ origin := Origin.current, bytes := [4] }],
    buildRes := some (Err.exit 3),
    startRes := none, pid := 9, early := none, ticks := fun _ => deadTick, status := 200 }

/-- A backend like `goodEnv`, whose run command writes `[3]`, while the
copying goroutine of the command killed by `Stop` still delivers `[2]`
after the reset. -/
def lateEnv : Env :=
  { checkRes := none, buildOut := [{ origin := Origin.current, bytes := [1] }],
    buildRes := none, startRes := none, pid := 9, early := none,
    ticks := fun _ =>
      { waited := none,
        out := [{ origin := Origin.earlier, bytes := [2] },
                { origin := Origin.current, bytes := [3] }],
        up := true },
    status := 200 }

/-! Derived notions used in the statements -/

/-- The bytes of the chunks written by the command the call is running. -/
def ownOf : List Chunk → List Byte
  | [] => []
  | c :: cs =>
    match c.origin with
    | Origin.current => c.bytes ++ ownOf cs
    | Origin.earlier => ownOf cs

/-- No chunk of the list comes from a command of an earlier generation. -/
def AllCurrent (cs : List Chunk) : Prop := ∀ c ∈ cs, c.origin = Origin.current

/-- The bytes that reach the buffer at the `k` ticks `n`, `n+1`, ...,
`n+k-1`, whoever wrote them. -/
def runOut (ticks : Nat → Tick) (n : Nat) : Nat → List Byte
  | 0 => []
  | k + 1 => bytesOf (ticks n).out ++ runOut ticks (n + 1) k

/-- The bytes the launched run command writes at the `k` ticks `n`, `n+1`,
..., `n+k-1`. -/
def runOwn (ticks : Nat → Tick) (n : Nat) : Nat → List Byte
  | 0 => []
  | k + 1 => ownOf (ticks n).out ++ runOwn ticks (n + 1) k

/-- The `kill` event of `Stop`: `Process.Kill()` is called when a command
with a process is associated. -/
def killEvents (w : WebProcess) : List Event :=
  match w.command with
  | none => []
  | some c =>
    match c.process with
    | some pid => [Event.kill pid]
    | none => []

/-- The error of `waitUntilIsUp` when the attempts are used up. -/
def didNotListen : Err := Err.new "Process did not listen after waiting 20*200ms"

/-- The action code `check` returns for the check result of `env`; the state
`check` is called in plays no part in it (`check_action_eq`). -/
def actionOf (env : Env) : Int :=
  match check w0 env.checkRes with
  | Except.ok (_, a) => a
  | Except.error _ => OK

/-- A malfunctioning backend: the check command runs and exits, the build
succeeds, the run command launches and stays alive, and the target URL never
answers a probe. -/
def Stuck (env : Env) : Prop :=
  (∃ n, env.checkRes = exitResult n) ∧ env.buildRes = none ∧ env.startRes = none ∧
    env.early = none ∧ ∀ k, (env.ticks k).waited = none ∧ (env.ticks k).up = false

/-- What the calls of a sequence of requests return against a malfunctioning
backend, `running` saying whether the process runs before the first one: the
readiness failure when the process is not running or the action is not `OK`,
and `nil` otherwise. -/
def stuckResults : Bool → List Env → List (Option Err)
  | _, [] => []
  | running, env :: envs =>
    (if !running || actionOf env != OK then some didNotListen else none) ::
      stuckResults true envs

/-! Auxiliary facts -/

@[simp] theorem isRunning_note (w : WebProcess) (e : Event) :
    isRunning (w.note e) = isRunning w := rfl
@[simp] theorem isRunning_logln (w : WebProcess) (l : LogLine) :
    isRunning (w.logln l) = isRunning w := rfl
@[simp] theorem isRunning_write (w : WebProcess) (bs : List Byte) :
    isRunning (w.write bs) = isRunning w := rfl

@[simp] theorem observe_none (w : WebProcess) : observe w none = w := rfl

@[simp] theorem observe_trace (w : WebProcess) (o : Option Bool) :
    (observe w o).trace = w.trace := by
  unfold observe
  cases o with
  | none => rfl
  | some ex =>
    cases hc : w.command with
    | none => simp
    | some c => simp only []; split_ifs <;> rfl

@[simp] theorem observe_output (w : WebProcess) (o : Option Bool) :
    (observe w o).output = w.output := by
  unfold observe
  cases o with
  | none => rfl
  | some ex =>
    cases hc : w.command with
    | none => simp
    | some c => simp only []; split_ifs <;> rfl

/-- With enough fuel the readiness loop returns; it probes at most `21 - n`
times, and on success the buffer has grown by the child's output so far. -/
theorem waitLoop_returns (ticks : Nat → Tick) :
    ∀ (fuel n : Nat) (w : WebProcess), n ≤ 20 → 21 ≤ fuel + n →
      ∃ w' e k, waitLoop ticks fuel n w = some (w', e) ∧ k ≤ 21 - n ∧
        w'.trace = w.trace ++ List.replicate k Event.probe ∧
        (e = none → 1 ≤ k ∧ w'.output = w.output ++ runOut ticks n k) := by
  intro fuel
  induction fuel with
  | zero => intro n w h1 h2; omega
  | succ fuel ih =>
    intro n w h1 h2
    unfold waitLoop
    simp only [isUp]
    generalize hw2 : observe (w.write (bytesOf (ticks n).out)) (ticks n).waited = w2
    have htr2 : w2.trace = w.trace := by rw [← hw2]; simp [WebProcess.write]
    have hout2 : w2.output = w.output ++ bytesOf (ticks n).out := by
      rw [← hw2]; simp [WebProcess.write]
    by_cases hr : isRunning w2 = true
    · by_cases hu : (ticks n).up = true
      · refine ⟨w2.note Event.probe, none, 1, ?_, by omega, ?_, ?_⟩
        · simp [hr, hu]
        · simp [WebProcess.note, htr2]
        · intro _
          simp [WebProcess.note, hout2, runOut]
      · by_cases hn : n + 1 > 20
        · refine ⟨((w2.note Event.probe).logln LogLine.dot).logln LogLine.givingUp,
            some (Err.new "Process did not listen after waiting 20*200ms"), 1, ?_,
            by omega, ?_, ?_⟩
          · simp [hr, hu, hn]
          · simp [WebProcess.note, WebProcess.logln, htr2]
          · intro h; simp at h
        · obtain ⟨w', e, k, hk, hle, htr, hout⟩ :=
            ih (n + 1) ((w2.note Event.probe).logln LogLine.dot) (by omega) (by omega)
          refine ⟨w', e, k + 1, ?_, by omega, ?_, ?_⟩
          · simp only [hr, hu, hn]; simpa using hk
          · rw [htr]
            simp [WebProcess.note, WebProcess.logln, htr2, List.replicate_succ]
          · intro he
            obtain ⟨_, ho⟩ := hout he
            refine ⟨by omega, ?_⟩
            rw [ho]
            simp [WebProcess.note, WebProcess.logln, hout2, runOut]
    · refine ⟨w2, some (Err.new "Process not running"), 0, ?_, by omega, ?_, ?_⟩
      · simp [hr]
      · simp [htr2]
      · intro h; simp at h

/-- While the child stays alive and no probe is answered, the loop entered
with the counter at `n` gives up after `21 - n` probes. -/
theorem waitLoop_stuck (ticks : Nat → Tick)
    (hdead : ∀ k, (ticks k).waited = none ∧ (ticks k).up = false) :
    ∀ (fuel n : Nat) (w : WebProcess), n ≤ 20 → 21 ≤ fuel + n → isRunning w = true →
      ∃ w', waitLoop ticks fuel n w = some (w', some didNotListen) ∧
        w'.trace = w.trace ++ List.replicate (21 - n) Event.probe ∧
        w'.command = w.command := by
  intro fuel
  induction fuel with
  | zero => intro n w h1 h2; omega
  | succ fuel ih =>
    intro n w h1 h2 hrun
    unfold waitLoop
    have hw := (hdead n).1
    have hu := (hdead n).2
    simp only [isUp, hw, hu, observe_none, isRunning_write, hrun]
    by_cases hn : n + 1 > 20
    · have h20 : n = 20 := by omega
      subst h20
      refine ⟨(((w.write (bytesOf (ticks 20).out)).note Event.probe).logln LogLine.dot).logln
          LogLine.givingUp, ?_, ?_, ?_⟩
      · simp [didNotListen]
      · simp [WebProcess.note, WebProcess.write, WebProcess.logln]
      · rfl
    · obtain ⟨w', hk, htr, hc⟩ :=
        ih (n + 1) ((((w.write (bytesOf (ticks n).out))).note Event.probe).logln LogLine.dot)
          (by omega) (by omega) (by simp [hrun])
      refine ⟨w', ?_, ?_, ?_⟩
      · simp only [hn]; simpa using hk
      · rw [htr]
        have : 21 - n = (21 - (n + 1)) + 1 := by omega
        rw [this, List.replicate_succ]
        simp [WebProcess.note, WebProcess.write, WebProcess.logln]
      · rw [hc]; rfl

/-- What a returning `check` leaves of the state: only the log and the
ghost trace grow. -/
theorem check_ok_inv {w w1 : WebProcess} {r : Option Err} {a : Int}
    (h : check w r = Except.ok (w1, a)) :
    w1.command = w.command ∧ w1.output = w.output ∧
      w1.trace = w.trace ++ [Event.check] ∧ isRunning w1 = isRunning w := by
  unfold check at h
  rcases r with _ | (n | _ | s)
  · simp [WebProcess.note, OK, REBUILD, RESTART] at h
    obtain ⟨rfl, rfl⟩ := h
    exact ⟨rfl, rfl, rfl, rfl⟩
  · simp only [WebProcess.note, WebProcess.logln] at h
    split_ifs at h <;>
    · simp only [Except.ok.injEq, Prod.mk.injEq] at h
      obtain ⟨rfl, rfl⟩ := h
      exact ⟨rfl, rfl, rfl, rfl⟩
  · simp at h
  · simp at h

theorem isRunning_congr {w w' : WebProcess} (h : w'.command = w.command) :
    isRunning w' = isRunning w := by
  unfold isRunning; rw [h]

/-- On success the readiness loop has appended the child's output of the
ticks it went through, at most `21 - n` of them. -/
theorem waitLoop_success_output (ticks : Nat → Tick) :
    ∀ (fuel n : Nat) (w w' : WebProcess), n ≤ 20 →
      waitLoop ticks fuel n w = some (w', none) →
      isRunning w' = true ∧
        ∃ k, 1 ≤ k ∧ n + k ≤ 21 ∧ w'.output = w.output ++ runOut ticks n k := by
  intro fuel
  induction fuel with
  | zero => intro n w w' _ h; simp [waitLoop] at h
  | succ fuel ih =>
    intro n w w' h1 h
    unfold waitLoop at h
    simp only [isUp] at h
    generalize hw2 : observe (w.write (bytesOf (ticks n).out)) (ticks n).waited = w2 at h
    have hout2 : w2.output = w.output ++ bytesOf (ticks n).out := by
      rw [← hw2]; simp [WebProcess.write]
    by_cases hr : isRunning w2 = true
    · by_cases hu : (ticks n).up = true
      · simp [hr, hu] at h
        subst h
        exact ⟨by simpa using hr,
          1, le_refl _, by omega, by simp [WebProcess.note, hout2, runOut]⟩
      · by_cases hn : n + 1 > 20
        · simp [hr, hu, hn] at h
        · simp only [hr, hu, hn] at h
          simp only [Bool.not_true, Bool.false_eq_true, if_false] at h
          obtain ⟨hrw, k, hk1, hk2, ho⟩ := ih (n + 1) _ w' (by omega) h
          refine ⟨hrw, k + 1, by omega, by omega, ?_⟩
          rw [ho]
          simp [WebProcess.note, WebProcess.logln, hout2, runOut]
    · simp [hr] at h

theorem Stop_trace (w : WebProcess) :
    (Stop w).trace = w.trace ++ Event.stop :: killEvents w := by
  unfold Stop killEvents
  cases hc : w.command with
  | none => simp [WebProcess.note, hc]
  | some c =>
    cases hp : c.process with
    | none => simp [WebProcess.note, hc, hp, clearCmd]
    | some pid => simp [WebProcess.note, WebProcess.logln, hc, hp, clearCmd]

theorem Stop_command (w : WebProcess) : (Stop w).command = none := by
  unfold Stop
  cases hc : w.command with
  | none => simp [WebProcess.note, hc]
  | some c => simp [WebProcess.note, hc, clearCmd]

theorem Stop_isRunning (w : WebProcess) : isRunning (Stop w) = false := by
  unfold isRunning; rw [Stop_command]

theorem Stop_output (w : WebProcess) :
    (Stop w).output = if w.command.isSome then [] else w.output := by
  unfold Stop
  cases hc : w.command with
  | none => simp [WebProcess.note, hc]
  | some c => simp [WebProcess.note, hc, clearCmd]

/-- From a state that is not running `start` launches the run command. -/
theorem start_not_running (w : WebProcess) (pid : Nat) (r : Option Err)
    (h : isRunning w = false) :
    (start w pid r).2 = r ∧
      (start w pid r).1.trace = w.trace ++ [Event.start, Event.launch] ∧
      (start w pid r).1.output = w.output ∧
      (r = none → (start w pid r).1.command
        = some { line := w.RunCmd, process := some pid, processState := none }) := by
  unfold start
  simp only [isRunning_note, isRunning_logln, h]
  cases r with
  | none => simp [WebProcess.note, WebProcess.logln]
  | some e => simp [WebProcess.note, WebProcess.logln]

/-- With enough fuel `waitUntilIsUp` returns, after at most 21 probes. -/
theorem waitUntilIsUp_returns (fuel : Nat) (w : WebProcess) (early : Option Bool)
    (ticks : Nat → Tick) (hfuel : 21 ≤ fuel) :
    ∃ w' e k, waitUntilIsUp fuel w early ticks = some (w', e) ∧ k ≤ 21 ∧
      w'.trace = w.trace ++ Event.wait :: List.replicate k Event.probe := by
  simp only [waitUntilIsUp]
  generalize hw2 : observe (w.note Event.wait) early = w2
  have htr2 : w2.trace = w.trace ++ [Event.wait] := by
    rw [← hw2]; simp [WebProcess.note]
  by_cases hr : isRunning w2 = true
  · obtain ⟨w', e, k, hk, hle, htr, _⟩ :=
      waitLoop_returns ticks fuel 0 (w2.logln LogLine.waiting) (by omega) (by omega)
    refine ⟨w', e, k, ?_, by omega, ?_⟩
    · simpa [hr] using hk
    · rw [htr]; simp [WebProcess.logln, htr2]
  · refine ⟨w2, some (Err.new "Process is not running."), 0, ?_, by omega, ?_⟩
    · simp [hr]
    · simp [htr2]

/-- The readiness poll gives up after 21 probes when the child stays alive
and no probe is answered. -/
theorem waitUntilIsUp_stuck (fuel : Nat) (w : WebProcess) (ticks : Nat → Tick)
    (hfuel : 21 ≤ fuel) (hrun : isRunning w = true)
    (hdead : ∀ k, (ticks k).waited = none ∧ (ticks k).up = false) :
    ∃ w', waitUntilIsUp fuel w none ticks = some (w', some didNotListen) ∧
      w'.trace = w.trace ++ Event.wait :: List.replicate 21 Event.probe ∧
      w'.command = w.command := by
  simp only [waitUntilIsUp, observe_none]
  obtain ⟨w', hk, htr, hc⟩ :=
    waitLoop_stuck ticks hdead fuel 0 ((w.note Event.wait).logln LogLine.waiting)
      (by omega) (by omega) (by simp [hrun])
  refine ⟨w', ?_, ?_, ?_⟩
  · simpa [hrun] using hk
  · rw [htr]; simp [WebProcess.logln, WebProcess.note]
  · rw [hc]; rfl

/-- With enough fuel `restart` returns: it stops, starts, and polls when the
start succeeded. -/
theorem restart_returns (fuel : Nat) (w : WebProcess) (env : Env) (hfuel : 21 ≤ fuel) :
    ∃ w' e post, restart fuel w env = some (w', e) ∧
      w'.trace = w.trace ++ Event.stop :: killEvents w ++ [Event.start, Event.launch] ++ post ∧
      (∀ err, env.startRes = some err → e = some err ∧ post = []) ∧
      (env.startRes = none →
        restart fuel w env
          = waitUntilIsUp fuel (start (Stop w) env.pid none).1 env.early env.ticks ∧
        ∃ k, k ≤ 21 ∧ post = Event.wait :: List.replicate k Event.probe) := by
  obtain ⟨h2, htr, _, _⟩ := start_not_running (Stop w) env.pid env.startRes (Stop_isRunning w)
  rcases hst : start (Stop w) env.pid env.startRes with ⟨p1, p2⟩
  rw [hst] at h2 htr
  simp only at h2 htr
  subst h2
  cases hs : env.startRes with
  | some err =>
    refine ⟨p1.logln (LogLine.err err), some err, [], ?_, ?_, ?_, ?_⟩
    · rw [hs] at hst
      simp only [restart, hs, hst]
    · simp [WebProcess.logln, htr, Stop_trace]
    · intro err' h; simp at h; subst h; exact ⟨rfl, rfl⟩
    · intro h; simp at h
  | none =>
    obtain ⟨w', e, k, hk, hle, htr'⟩ :=
      waitUntilIsUp_returns fuel p1 env.early env.ticks hfuel
    rw [hs] at hst
    have hre : restart fuel w env = waitUntilIsUp fuel p1 env.early env.ticks := by
      simp only [restart, hs, hst]
    have hp1 : (start (Stop w) env.pid none).1 = p1 := by rw [hst]
    refine ⟨w', e, Event.wait :: List.replicate k Event.probe, ?_, ?_, ?_, ?_⟩
    · rw [hre, hk]
    · simp [htr', htr, Stop_trace]
    · intro err h; simp at h
    · intro _
      exact ⟨by rw [hre, hp1], k, hle, rfl⟩

/-- After a successful `restart` the buffer holds the child's output of this
call, behind the prior content when no command was associated. -/
theorem restart_success_output (fuel : Nat) (w w' : WebProcess) (env : Env)
    (h : restart fuel w env = some (w', none)) :
    isRunning w' = true ∧
      ∃ k, 1 ≤ k ∧ k ≤ 21 ∧
        w'.output = (if w.command.isSome then [] else w.output) ++ runOut env.ticks 0 k := by
  obtain ⟨h2, _, hout, _⟩ := start_not_running (Stop w) env.pid env.startRes (Stop_isRunning w)
  rcases hst : start (Stop w) env.pid env.startRes with ⟨p1, p2⟩
  rw [hst] at h2 hout
  simp only at h2 hout
  simp only [restart, hst] at h
  cases p2 with
  | some err => simp at h
  | none =>
    simp only [waitUntilIsUp] at h
    generalize hw2 : observe (p1.note Event.wait) env.early = w2 at h
    have hout2 : w2.output = p1.output := by rw [← hw2]; simp [WebProcess.note]
    by_cases hr : isRunning w2 = true
    · simp only [hr, Bool.not_true, Bool.false_eq_true, if_false] at h
      obtain ⟨hrw, k, hk1, hk2, ho⟩ :=
        waitLoop_success_output env.ticks fuel 0 _ w' (by omega) h
      refine ⟨hrw, k, hk1, by omega, ?_⟩
      rw [ho]
      simp [WebProcess.logln, hout2, hout, Stop_output]
    · simp [hr] at h

/-- A malfunctioning backend makes `restart` end in the readiness failure,
with the new child left running. -/
theorem restart_stuck (fuel : Nat) (w : WebProcess) (env : Env) (hfuel : 21 ≤ fuel)
    (hs : env.startRes = none) (he : env.early = none)
    (hdead : ∀ k, (env.ticks k).waited = none ∧ (env.ticks k).up = false) :
    ∃ w', restart fuel w env = some (w', some didNotListen) ∧ isRunning w' = true := by
  obtain ⟨h2, _, _, hc⟩ := start_not_running (Stop w) env.pid env.startRes (Stop_isRunning w)
  rcases hst : start (Stop w) env.pid env.startRes with ⟨p1, p2⟩
  rw [hst] at h2 hc
  simp only at h2 hc
  rw [hs] at h2
  subst h2
  have hrun : isRunning p1 = true := by
    unfold isRunning; rw [hc hs]; rfl
  obtain ⟨w', hk, _, hcmd⟩ := waitUntilIsUp_stuck fuel p1 env.ticks hfuel hrun hdead
  refine ⟨w', ?_, by rw [isRunning_congr hcmd]; exact hrun⟩
  simp only [restart, hst, he]
  exact hk

/-- The action `check` returns for an exit status. -/
theorem check_exitResult (w : WebProcess) (n : Int) :
    ∃ w1, check w (exitResult n)
      = Except.ok (w1, if n = 1 then REBUILD else if n = 2 then RESTART else OK) := by
  unfold check exitResult
  by_cases h0 : n = 0
  · subst h0; simp [OK, REBUILD, RESTART]
  · by_cases h1 : n = 1
    · subst h1; simp [OK, REBUILD, RESTART]
    · by_cases h2 : n = 2
      · subst h2; simp [OK, REBUILD, RESTART]
      · simp [OK, REBUILD, RESTART, h0, h1, h2]

theorem check_action_eq (w w1 : WebProcess) (env : Env) (a : Int)
    (h : check w env.checkRes = Except.ok (w1, a)) : actionOf env = a := by
  unfold actionOf
  unfold check at h ⊢
  rcases hr : env.checkRes with _ | (n | _ | s)
  · rw [hr] at h
    simp [OK, REBUILD, RESTART] at h ⊢
    exact h.2
  · rw [hr] at h
    simp only at h ⊢
    split_ifs at h ⊢ <;> simp_all
  · rw [hr] at h; simp at h
  · rw [hr] at h; simp at h

theorem ownOf_eq_bytesOf {cs : List Chunk} (h : AllCurrent cs) : ownOf cs = bytesOf cs := by
  induction cs with
  | nil => rfl
  | cons c cs ih =>
    have hc : c.origin = Origin.current := h c (by simp)
    have ht : AllCurrent cs := fun d hd => h d (by simp [hd])
    simp only [ownOf, bytesOf, hc, ih ht]

theorem runOwn_eq_runOut (ticks : Nat → Tick) :
    ∀ (k n : Nat), (∀ i, i < k → AllCurrent (ticks (n + i)).out) →
      runOwn ticks n k = runOut ticks n k := by
  intro k
  induction k with
  | zero => intro n _; rfl
  | succ k ih =>
    intro n h
    have h0 : AllCurrent (ticks n).out := by simpa using h 0 (by omega)
    have hrest : ∀ i, i < k → AllCurrent (ticks (n + 1 + i)).out := by
      intro i hi
      have := h (i + 1) (by omega)
      rwa [show n + (i + 1) = n + 1 + i by omega] at this
    simp only [runOwn, runOut, ownOf_eq_bytesOf h0, ih (n + 1) hrest]

theorem killEvents_congr {w w' : WebProcess} (h : w'.command = w.command) :
    killEvents w' = killEvents w := by
  unfold killEvents; rw [h]

theorem killEvents_running {w : WebProcess} (h : isRunning w = true) :
    ∃ pid, killEvents w = [Event.kill pid] := by
  cases hc : w.command with
  | none => simp [isRunning, hc] at h
  | some c =>
    cases hp : c.process with
    | none => simp [isRunning, hc, hp] at h
    | some pid => exact ⟨pid, by simp [killEvents, hc, hp]⟩

theorem stuckEnv_stuck (n : Int) : Stuck (stuckEnv (exitResult n)) :=
  ⟨⟨n, rfl⟩, rfl, rfl, rfl, fun _ => ⟨rfl, rfl⟩⟩

/-- One request against a malfunctioning backend. -/
theorem prepare_stuck (fuel : Nat) (w : WebProcess) (env : Env) (hfuel : 21 ≤ fuel)
    (hs : Stuck env) :
    ∃ w', prepareProcessForRequest fuel w env
        = Except.ok (some (w',
            if !isRunning w || actionOf env != OK then some didNotListen else none)) ∧
      isRunning w' = true := by
  obtain ⟨⟨n, hn⟩, hb, hst, he, hdead⟩ := hs
  obtain ⟨w1, hcheck⟩ := check_exitResult w n
  rw [← hn] at hcheck
  have hact := check_action_eq w w1 env _ hcheck
  obtain ⟨_, _, _, hr1⟩ := check_ok_inv hcheck
  have hreb : ∀ v, ∃ w', rebuildAndStart fuel v env = some (w', some didNotListen) ∧
      isRunning w' = true := by
    intro v
    obtain ⟨w', h1, h2⟩ :=
      restart_stuck fuel (rebuild v env.buildOut none).1 env hfuel hst he hdead
    exact ⟨w', by simp only [rebuildAndStart, rebuild, hb]; exact h1, h2⟩
  simp only [prepareProcessForRequest, hcheck, hact, hr1]
  by_cases hrun : isRunning w = true
  · by_cases h1 : n = 1
    · obtain ⟨w', h1', h2'⟩ := hreb w1
      exact ⟨w', by simp [h1, hrun, REBUILD, OK, h1'], h2'⟩
    · by_cases h2 : n = 2
      · obtain ⟨w', h1', h2'⟩ := restart_stuck fuel w1 env hfuel hst he hdead
        exact ⟨w', by simp [h2, hrun, REBUILD, RESTART, OK, h1'], h2'⟩
      · exact ⟨w1, by simp [h1, h2, hrun, REBUILD, RESTART, OK], by rw [hr1]; exact hrun⟩
  · obtain ⟨w', h1', h2'⟩ := hreb w1
    have hf : isRunning w = false := by simpa using hrun
    exact ⟨w', by simp [hf, h1'], h2'⟩

/-- One served request against a malfunctioning backend. -/
theorem ServeHTTP_stuck (fuel : Nat) (w : WebProcess) (env : Env) (hfuel : 21 ≤ fuel)
    (hs : Stuck env) :
    ∃ w', ServeHTTP fuel w env
        = Except.ok (some (w',
            if !isRunning w || actionOf env != OK then some didNotListen else none)) ∧
      isRunning w' = true := by
  obtain ⟨w1, h1, hr1⟩ := prepare_stuck fuel w env hfuel hs
  generalize (if !isRunning w || actionOf env != OK then some didNotListen else none) = r
    at h1 ⊢
  cases r with
  | some e => exact ⟨{ w1 with output := [] }, by simp only [ServeHTTP, h1], hr1⟩
  | none =>
    by_cases h500 : env.status = 500
    · exact ⟨{ w1 with output := [] }, by simp only [ServeHTTP, h1, h500, if_true], hr1⟩
    · exact ⟨w1, by simp only [ServeHTTP, h1, h500, if_false], hr1⟩

/-! The claims -/

/-- C1: for every exit status `n` of a check command that ran and exited,
`check` returns (does not panic) with `OK` (0) when `n = 0`, `REBUILD` (1)
when `n = 1`, `RESTART` (2) when `n = 2`, and `OK` (0) for every other `n`. -/
theorem check_maps_exit_status (w : WebProcess) (n : Int) :
    OK = 0 ∧ REBUILD = 1 ∧ RESTART = 2 ∧
    ∃ w1, check w (exitResult n)
      = Except.ok (w1, if n = 1 then REBUILD else if n = 2 then RESTART else OK) :=
  ⟨rfl, rfl, rfl, check_exitResult w n⟩

/-- C2: when `isRunning` is false, whatever action code `check` returned,
`prepareProcessForRequest` is `rebuildAndStart`: after `check` the build
command runs; when the build fails nothing else is done, and when it
succeeds `Stop` and `start` follow and the run command is launched. -/
theorem prepare_not_running_rebuilds (fuel : Nat) (w w1 : WebProcess) (env : Env)
    (action : Int) (hfuel : 21 ≤ fuel)
    (hcheck : check w env.checkRes = Except.ok (w1, action))
    (hrun : isRunning w = false) :
    prepareProcessForRequest fuel w env = Except.ok (rebuildAndStart fuel w1 env) ∧
    ∃ w' e rest, rebuildAndStart fuel w1 env = some (w', e) ∧
      w'.trace = w.trace ++ [Event.check, Event.build] ++ rest ∧
      (∀ err, env.buildRes = some err → e = some err ∧ rest = []) ∧
      (env.buildRes = none →
        ∃ post, rest = Event.stop :: killEvents w ++ [Event.start, Event.launch] ++ post) := by
  obtain ⟨hc, _, htr, hr1⟩ := check_ok_inv hcheck
  refine ⟨by simp [prepareProcessForRequest, hcheck, hr1, hrun], ?_⟩
  cases hb : env.buildRes with
  | some err =>
    refine ⟨(rebuild w1 env.buildOut (some err)).1.logln (LogLine.err err), some err, [],
      by simp only [rebuildAndStart, rebuild, hb], ?_, ?_, ?_⟩
    · simp [rebuild, WebProcess.logln, WebProcess.note, WebProcess.write, htr]
    · intro err' h; simp at h; subst h; exact ⟨rfl, rfl⟩
    · intro h; simp at h
  | none =>
    obtain ⟨w', e, post, hre, htr', _, _⟩ :=
      restart_returns fuel (rebuild w1 env.buildOut none).1 env hfuel
    have hk : killEvents (rebuild w1 env.buildOut none).1 = killEvents w :=
      killEvents_congr (by rw [← hc]; rfl)
    refine ⟨w', e, Event.stop :: killEvents w ++ [Event.start, Event.launch] ++ post,
      by simp only [rebuildAndStart, rebuild, hb]; exact hre, ?_, ?_, ?_⟩
    · rw [htr', hk]
      simp [rebuild, WebProcess.logln, WebProcess.note, WebProcess.write, htr]
    · intro err h; simp at h
    · intro _; exact ⟨post, rfl⟩

/-- Witness of C2: a supervisor whose child has exited, a check that
answers `OK`, a healthy backend. -/
theorem prepare_not_running_rebuilds_witness :
    isRunning wExited = false ∧
    prepareProcessForRequest 21 wExited (goodEnv none)
      = Except.ok (rebuildAndStart 21 (wExited.note Event.check) (goodEnv none)) ∧
    ∃ w' e rest, rebuildAndStart 21 (wExited.note Event.check) (goodEnv none) = some (w', e) ∧
      w'.trace = wExited.trace ++ [Event.check, Event.build] ++ rest ∧
      (∀ err, (goodEnv none).buildRes = some err → e = some err ∧ rest = []) ∧
      ((goodEnv none).buildRes = none →
        ∃ post, rest
          = Event.stop :: killEvents wExited ++ [Event.start, Event.launch] ++ post) :=
  ⟨rfl, prepare_not_running_rebuilds 21 wExited (wExited.note Event.check) (goodEnv none) OK
    (by decide) rfl rfl⟩

/-- C3 as stated fails: the child is running, `check` returns `REBUILD`, the
build exits with status 3; the call returns that failure and the child is
still running, `Stop` was not called. -/
theorem build_failure_leaves_child_running :
    isRunning wRunning = true ∧
    prepareProcessForRequest 21 wRunning failEnv
      = Except.ok (some
          ({ wRunning with
              output := [4],
              log := [LogLine.checkStatus 1, LogLine.build "build",
                LogLine.err (Err.exit 3)],
              trace := [Event.check, Event.build] },
           some (Err.exit 3))) ∧
    isRunning
      { wRunning with
          output := [4],
          log := [LogLine.checkStatus 1, LogLine.build "build", LogLine.err (Err.exit 3)],
          trace := [Event.check, Event.build] } = true :=
  ⟨rfl, rfl, rfl⟩

/-- C3, amended: on the rebuild path (`isRunning` false, or `check` returned
`REBUILD`), when the build command fails `prepareProcessForRequest` returns
the build failure and leaves the process association as it was: `Stop` is
not called, so `isRunning` afterwards is what it was before. -/
theorem prepare_build_failure (fuel : Nat) (w w1 : WebProcess) (env : Env) (action : Int)
    (err : Err) (hcheck : check w env.checkRes = Except.ok (w1, action))
    (hpath : isRunning w = false ∨ action = REBUILD)
    (hbuild : env.buildRes = some err) :
    ∃ w', prepareProcessForRequest fuel w env = Except.ok (some (w', some err)) ∧
      w'.command = w.command ∧ isRunning w' = isRunning w ∧
      w'.trace = w.trace ++ [Event.check, Event.build] := by
  obtain ⟨hc, _, htr, hr1⟩ := check_ok_inv hcheck
  have hcond : (!isRunning w1 || action == REBUILD) = true := by
    rcases hpath with h | h
    · simp [hr1, h]
    · simp [h]
  refine ⟨(rebuild w1 env.buildOut (some err)).1.logln (LogLine.err err), ?_, ?_, ?_, ?_⟩
  · simp only [prepareProcessForRequest, hcheck, hcond, if_true, rebuildAndStart, rebuild,
      hbuild]
  · rw [← hc]; rfl
  · rw [← hr1]; rfl
  · simp [rebuild, WebProcess.logln, WebProcess.note, WebProcess.write, htr]

/-- Witness of C3, amended: the running child, `REBUILD`, a build that exits
with status 3. -/
theorem prepare_build_failure_witness :
    (isRunning wRunning = false ∨ (1 : Int) = REBUILD) ∧
    ∃ w', prepareProcessForRequest 21 wRunning failEnv
        = Except.ok (some (w', some (Err.exit 3))) ∧
      w'.command = wRunning.command ∧ isRunning w' = isRunning wRunning ∧
      w'.trace = wRunning.trace ++ [Event.check, Event.build] :=
  ⟨Or.inr rfl,
    prepare_build_failure 21 wRunning
      ((wRunning.note Event.check).logln (LogLine.checkStatus 1)) failEnv 1 (Err.exit 3)
      rfl (Or.inr rfl) rfl⟩

/-- C4 as stated fails: a command is associated whose process was observed
to exit; `start` returns no error and replaces the command. -/
theorem start_replaces_exited_command :
    wExited.command ≠ none ∧
    (start wExited 9 none).2 = none ∧
    (start wExited 9 none).1.command
      = some { line := "run", process := some 9, processState := none } ∧
    (start wExited 9 none).1.command ≠ wExited.command := by
  decide

/-- C4, amended: in every state in which `isRunning` is true, `start`
returns the error "Can't start, already running." and leaves the process
association unchanged. -/
theorem start_refuses_when_running (w : WebProcess) (pid : Nat) (startRes : Option Err)
    (hrun : isRunning w = true) :
    (start w pid startRes).2 = some (Err.new "Can't start, already running.") ∧
    (start w pid startRes).1.command = w.command ∧
    (start w pid startRes).1.trace = w.trace ++ [Event.start] := by
  simp only [start, isRunning_note, isRunning_logln, hrun, if_true]
  simp [WebProcess.note, WebProcess.logln]

/-- Witness of C4, amended: the running child of `wRunning`. -/
theorem start_refuses_when_running_witness :
    isRunning wRunning = true ∧
    (start wRunning 9 none).2 = some (Err.new "Can't start, already running.") ∧
    (start wRunning 9 none).1.command = wRunning.command ∧
    (start wRunning 9 none).1.trace = wRunning.trace ++ [Event.start] :=
  ⟨rfl, start_refuses_when_running wRunning 9 none rfl⟩

/-- C5 as stated fails, in two ways.  No process is associated and the
buffer holds the byte `7` of an earlier generation: `rebuildAndStart`
succeeds, the build writes `[1]`, the run command `[2]`, and the buffer is
`[7, 1, 2]`, since `Stop` resets nothing.  A child is running: `Stop` kills
it and resets the buffer, its copying goroutine still delivers `[2]`, the
new run command writes `[3]`, and the buffer is `[2, 3]`. -/
theorem rebuildAndStart_keeps_stale_output :
    (wStale.command = none ∧ wStale.output = [7] ∧
      ownOf (goodEnv none).buildOut = [1] ∧ runOwn (goodEnv none).ticks 0 1 = [2] ∧
      (rebuildAndStart 21 wStale (goodEnv none)).map (fun r => (r.1.output, r.2))
        = some ([7, 1, 2], none)) ∧
    (isRunning wRunning = true ∧ wRunning.output = [] ∧
      ownOf lateEnv.buildOut = [1] ∧ runOwn lateEnv.ticks 0 1 = [3] ∧
      (rebuildAndStart 21 wRunning lateEnv).map (fun r => (r.1.output, r.2))
        = some ([2, 3], none)) := by
  decide

/-- C5, amended: after `rebuildAndStart` returns success the buffer is, in
order of arrival, the prior content and what was written while the build ran
(only when no command was associated before the call: `Stop` then resets
nothing), followed by what was written after `Stop`, by the launched run
command and by commands of earlier generations, whose writers still target
the buffer.  So it holds only bytes of the build and run command of this
call when no command of an earlier generation delivers bytes after `Stop`
and either a command was associated before the call, or the prior buffer was
empty and no such command delivered bytes while the build ran. -/
theorem rebuildAndStart_success_output (fuel : Nat) (w w' : WebProcess) (env : Env)
    (h : rebuildAndStart fuel w env = some (w', none)) :
    ∃ k, 1 ≤ k ∧ k ≤ 21 ∧
      w'.output = (if w.command.isSome then [] else w.output ++ bytesOf env.buildOut)
        ++ runOut env.ticks 0 k ∧
      (w.command.isSome = true ∨ (w.output = [] ∧ AllCurrent env.buildOut) →
        (∀ i, i < k → AllCurrent (env.ticks i).out) →
        w'.output <:+ ownOf env.buildOut ++ runOwn env.ticks 0 k) := by
  simp only [rebuildAndStart, rebuild] at h
  cases hb : env.buildRes with
  | some err => rw [hb] at h; simp at h
  | none =>
    rw [hb] at h
    simp only at h
    obtain ⟨_, k, hk1, hk2, ho⟩ := restart_success_output fuel _ w' env h
    have ho' : w'.output = (if w.command.isSome then [] else w.output ++ bytesOf env.buildOut)
        ++ runOut env.ticks 0 k := by
      rw [ho]; simp [WebProcess.logln, WebProcess.note, WebProcess.write]
    refine ⟨k, hk1, hk2, ho', ?_⟩
    intro hor hticks
    have hrun : runOwn env.ticks 0 k = runOut env.ticks 0 k :=
      runOwn_eq_runOut env.ticks k 0 (fun i hi => by simpa using hticks i hi)
    rw [ho', hrun]
    rcases hor with hs | ⟨he, hcur⟩
    · simp [hs]
    · rw [he, ownOf_eq_bytesOf hcur]
      cases hc : w.command.isSome with
      | true => simp
      | false => simp

/-- Witness of C5, amended: the exited child of `wExited` is replaced and no
earlier command writes; the buffer afterwards is the `[2]` of the new run
command. -/
theorem rebuildAndStart_success_output_witness :
    rebuildAndStart 21 wExited (goodEnv none)
      = some
          ({ wExited with
              command := some { line := "run", process := some 9, processState := none },
              output := [2],
              log := [LogLine.build "build", LogLine.stopping 5, LogLine.start "run",
                LogLine.started 9, LogLine.waiting],
              trace := [Event.build, Event.stop, Event.kill 5, Event.start, Event.launch,
                Event.wait, Event.probe] },
           none) ∧
    ∃ k, 1 ≤ k ∧ k ≤ 21 ∧
      [2] = (if wExited.command.isSome then []
          else wExited.output ++ bytesOf (goodEnv none).buildOut)
        ++ runOut (goodEnv none).ticks 0 k ∧
      (wExited.command.isSome = true ∨
          (wExited.output = [] ∧ AllCurrent (goodEnv none).buildOut) →
        (∀ i, i < k → AllCurrent ((goodEnv none).ticks i).out) →
        [2] <:+ ownOf (goodEnv none).buildOut ++ runOwn (goodEnv none).ticks 0 k) :=
  ⟨rfl,
    rebuildAndStart_success_output 21 wExited
      { wExited with
          command := some { line := "run", process := some 9, processState := none },
          output := [2],
          log := [LogLine.build "build", LogLine.stopping 5, LogLine.start "run",
            LogLine.started 9, LogLine.waiting],
          trace := [Event.build, Event.stop, Event.kill 5, Event.start, Event.launch,
            Event.wait, Event.probe] }
      (goodEnv none) rfl⟩

/-- C6 on the code: with a child that stays running and probes that all
fail, `waitUntilIsUp` returns "Process did not listen after waiting
20*200ms" after 21 probes, not 20: the counter is tested with `ticks > 20`
after it was incremented. -/
theorem waitUntilIsUp_gives_up_after_21_probes (fuel : Nat) (w : WebProcess)
    (ticks : Nat → Tick) (hfuel : 21 ≤ fuel) (hrun : isRunning w = true)
    (hdead : ∀ k, (ticks k).waited = none ∧ (ticks k).up = false) :
    ∃ w', waitUntilIsUp fuel w none ticks
        = some (w', some (Err.new "Process did not listen after waiting 20*200ms")) ∧
      w'.trace = w.trace ++ Event.wait :: List.replicate 21 Event.probe ∧
      (w'.trace.drop w.trace.length).count Event.probe = 21 := by
  obtain ⟨w', h1, h2, _⟩ := waitUntilIsUp_stuck fuel w ticks hfuel hrun hdead
  refine ⟨w', h1, h2, ?_⟩
  rw [h2, List.drop_left]
  decide

/-- Witness of C6 on the code: the running child of `wRunning`, every tick
dead. -/
theorem waitUntilIsUp_gives_up_after_21_probes_witness :
    isRunning wRunning = true ∧
    ∃ w', waitUntilIsUp 21 wRunning none (fun _ => deadTick)
        = some (w', some (Err.new "Process did not listen after waiting 20*200ms")) ∧
      w'.trace = wRunning.trace ++ Event.wait :: List.replicate 21 Event.probe ∧
      (w'.trace.drop wRunning.trace.length).count Event.probe = 21 :=
  ⟨rfl,
    waitUntilIsUp_gives_up_after_21_probes 21 wRunning (fun _ => deadTick) (by decide) rfl
      (fun _ => ⟨rfl, rfl⟩)⟩

/-- C7: when `isRunning` is true and `check` returns `OK` (none),
`prepareProcessForRequest` returns `nil` in the state `check` left: the
command and the buffer are those before the call, and `check` is the only
method entered (no build, `Stop`, `start` or readiness poll). -/
theorem prepare_noop_when_running (fuel : Nat) (w w1 : WebProcess) (env : Env)
    (hrun : isRunning w = true)
    (hcheck : check w env.checkRes = Except.ok (w1, OK)) :
    prepareProcessForRequest fuel w env = Except.ok (some (w1, none)) ∧
    w1.command = w.command ∧ w1.output = w.output ∧
    w1.trace = w.trace ++ [Event.check] := by
  obtain ⟨hc, ho, htr, hr1⟩ := check_ok_inv hcheck
  refine ⟨?_, hc, ho, htr⟩
  simp [prepareProcessForRequest, hcheck, hr1, hrun, OK, REBUILD, RESTART]

/-- Witness of C7: the running child of `wRunning`, a check that exits 0. -/
theorem prepare_noop_when_running_witness :
    isRunning wRunning = true ∧
    prepareProcessForRequest 21 wRunning (goodEnv none)
      = Except.ok (some (wRunning.note Event.check, none)) ∧
    (wRunning.note Event.check).command = wRunning.command ∧
    (wRunning.note Event.check).output = wRunning.output ∧
    (wRunning.note Event.check).trace = wRunning.trace ++ [Event.check] :=
  ⟨rfl,
    prepare_noop_when_running 21 wRunning (wRunning.note Event.check) (goodEnv none) rfl rfl⟩

/-- C8: when `isRunning` is true and `check` returns `RESTART`,
`prepareProcessForRequest` is `restart`: `Stop` (the child is killed), then
`start` (the run command is launched), then `waitUntilIsUp` when `start`
succeeded; the build command is not run, and the result is the error of
`start` when it failed and the result of `waitUntilIsUp` otherwise. -/
theorem prepare_restart_when_running (fuel : Nat) (w w1 : WebProcess) (env : Env)
    (hfuel : 21 ≤ fuel) (hrun : isRunning w = true)
    (hcheck : check w env.checkRes = Except.ok (w1, RESTART)) :
    prepareProcessForRequest fuel w env = Except.ok (restart fuel w1 env) ∧
    ∃ w' e pid post, restart fuel w1 env = some (w', e) ∧
      w'.trace = w.trace
        ++ [Event.check, Event.stop, Event.kill pid, Event.start, Event.launch] ++ post ∧
      Event.build ∉ w'.trace.drop w.trace.length ∧
      (∀ err, env.startRes = some err → e = some err ∧ post = []) ∧
      (env.startRes = none →
        waitUntilIsUp fuel (start (Stop w1) env.pid none).1 env.early env.ticks
          = some (w', e) ∧
        ∃ k, k ≤ 21 ∧ post = Event.wait :: List.replicate k Event.probe) := by
  obtain ⟨hc, _, htr, hr1⟩ := check_ok_inv hcheck
  refine ⟨by simp [prepareProcessForRequest, hcheck, hr1, hrun, REBUILD, RESTART], ?_⟩
  obtain ⟨w', e, post, hre, htr', hfail, hok⟩ := restart_returns fuel w1 env hfuel
  obtain ⟨pid, hpid⟩ := killEvents_running hrun
  have hk : killEvents w1 = [Event.kill pid] := by rw [killEvents_congr hc, hpid]
  have htr2 : w'.trace = w.trace
      ++ [Event.check, Event.stop, Event.kill pid, Event.start, Event.launch] ++ post := by
    rw [htr', hk, htr]; simp
  refine ⟨w', e, pid, post, hre, htr2, ?_, hfail, ?_⟩
  · rw [htr2, List.append_assoc, List.drop_left]
    cases hs : env.startRes with
    | some err => rw [(hfail err hs).2]; simp
    | none =>
      obtain ⟨_, k, _, hp⟩ := hok hs
      rw [hp]; simp
  · intro hs
    obtain ⟨h1, h2⟩ := hok hs
    exact ⟨by rw [← h1, hre], h2⟩

/-- Witness of C8: the running child of `wRunning`, a check that exits 2,
a healthy backend. -/
theorem prepare_restart_when_running_witness :
    isRunning wRunning = true ∧
    prepareProcessForRequest 21 wRunning (goodEnv (some (Err.exit 2)))
      = Except.ok
          (restart 21 ((wRunning.note Event.check).logln (LogLine.checkStatus 2))
            (goodEnv (some (Err.exit 2)))) ∧
    ∃ w' e pid post,
      restart 21 ((wRunning.note Event.check).logln (LogLine.checkStatus 2))
          (goodEnv (some (Err.exit 2))) = some (w', e) ∧
      w'.trace = wRunning.trace
        ++ [Event.check, Event.stop, Event.kill pid, Event.start, Event.launch] ++ post ∧
      Event.build ∉ w'.trace.drop wRunning.trace.length ∧
      (∀ err, (goodEnv (some (Err.exit 2))).startRes = some err → e = some err ∧ post = []) ∧
      ((goodEnv (some (Err.exit 2))).startRes = none →
        waitUntilIsUp 21
            (start (Stop ((wRunning.note Event.check).logln (LogLine.checkStatus 2)))
              (goodEnv (some (Err.exit 2))).pid none).1
            (goodEnv (some (Err.exit 2))).early (goodEnv (some (Err.exit 2))).ticks
          = some (w', e) ∧
        ∃ k, k ≤ 21 ∧ post = Event.wait :: List.replicate k Event.probe) :=
  ⟨rfl,
    prepare_restart_when_running 21 wRunning
      ((wRunning.note Event.check).logln (LogLine.checkStatus 2))
      (goodEnv (some (Err.exit 2))) (by decide) rfl rfl⟩

/-- C9 as stated fails: against a backend that launches, stays alive and
never listens, the first request (check exits 0, nothing running) ends in
the readiness failure, and the next request (check exits 0 again) returns
`nil`: the child runs, so nothing is polled. -/
theorem request_after_timeout_succeeds :
    Stuck (stuckEnv none) ∧
    (serveAll 21 w0 [stuckEnv none, stuckEnv none]).map Prod.snd
      = some [some (Err.new "Process did not listen after waiting 20*200ms"), none] :=
  ⟨stuckEnv_stuck 0, by decide⟩

/-- C9, amended: against a backend whose build succeeds, whose run command
launches and stays alive and whose URL never answers, in every sequence of
requests a call returns the readiness failure exactly when it finds the
process not running (only the first call can) or `check` returns `REBUILD`
or `RESTART`; a call in which `check` returns `OK` while the child runs
returns `nil` without polling. -/
theorem stuck_backend_results (fuel : Nat) (envs : List Env) (hfuel : 21 ≤ fuel)
    (hstuck : ∀ env ∈ envs, Stuck env) (w : WebProcess) :
    ∃ w', serveAll fuel w envs = some (w', stuckResults (isRunning w) envs) := by
  induction envs generalizing w with
  | nil => exact ⟨w, rfl⟩
  | cons env envs ih =>
    obtain ⟨w1, h1, hr1⟩ := ServeHTTP_stuck fuel w env hfuel (hstuck env (by simp))
    obtain ⟨w2, h2⟩ := ih (fun e he => hstuck e (by simp [he])) w1
    rw [hr1] at h2
    exact ⟨w2, by simp only [serveAll, h1, h2, stuckResults]⟩

/-- Witness of C9, amended: three requests whose checks exit 0, 2 and 0. -/
theorem stuck_backend_results_witness :
    ∃ w', serveAll 21 w0 [stuckEnv none, stuckEnv (some (Err.exit 2)), stuckEnv none]
      = some (w', [some didNotListen, some didNotListen, none]) :=
  stuck_backend_results 21 [stuckEnv none, stuckEnv (some (Err.exit 2)), stuckEnv none]
    (by decide)
    (by
      intro env h
      simp only [List.mem_cons, List.mem_singleton, List.not_mem_nil, or_false] at h
      rcases h with rfl | rfl | rfl
      · exact stuckEnv_stuck 0
      · exact stuckEnv_stuck 2
      · exact stuckEnv_stuck 0)
    w0

end Shotgun
